import Mathlib

/-!
Verification of the SFU token issuance / verification / room registry core
(`backend/endpoints/sfu.py`) against its natural-language specification.

The Python endpoints are shallowly embedded:

* JSON-ish dynamic Python values (JWT claim values, decoded store records)
  are `JVal`.
* The Redis store is an association list from keys to `RVal`.  A stored
  string is represented by its JSON parse when it is valid JSON
  (`RVal.json j`), and by `RVal.notJson s` otherwise; `json.loads` is then
  total on this representation.  A JSON object models the decoded Python
  dict, so its field list is taken to be keyed uniquely.
* JWT decoding is abstracted as the spec directs ("verify signature →
  claims or failure"): a `Token` is either `invalid` (signature/decode
  failure) or `signed claims`.
* HTTPException is `HErr` (status code plus detail string); endpoint
  bodies return `Except HErr`.
* Store-touching endpoints additionally return the updated store and the
  list of store operations they performed, so that frame conditions
  ("no store access") are expressible.
* The `x-romm-sfu-secret` service-secret gate runs before any of the logic
  modelled here and is independent of it; the embedded endpoint bodies
  model the code after that gate.
-/

namespace SFUSpec

/-- Dynamic (Python/JSON) values as they occur in JWT claims and in decoded
store records. -/
inductive JVal where
  | null
  | str (s : String)
  | int (n : Int)
  | bool (b : Bool)
  | arr (xs : List JVal)
  | obj (fields : List (String × JVal))

/-- Python truthiness (`bool(x)`) of a dynamic value. -/
def pyTruthy : JVal → Bool
  | .null => false
  | .str s => !(s == "")
  | .int n => !(n == 0)
  | .bool b => b
  | .arr xs => !xs.isEmpty
  | .obj fs => !fs.isEmpty

/-- Python `s.strip()`: drop leading and trailing whitespace.  Implemented
over the character list so that it evaluates by kernel reduction
(`String.trim` is defined by well-founded recursion and does not). -/
def pyStrip (s : String) : String :=
  String.mk
    (((s.data.dropWhile Char.isWhitespace).reverse.dropWhile
      Char.isWhitespace).reverse)

/-- Whether `s` starts with `pre`, over the character lists (the
kernel-reducible equivalent of `String.startsWith`). -/
def strStartsWith (s pre : String) : Bool :=
  pre.data.isPrefixOf s.data

/-- Digit-string accumulator for the embedded Python `int(str)`. -/
def parseDigitsAux : List Char → Nat → Option Nat
  | [], acc => some acc
  | c :: cs, acc =>
    if c.isDigit then parseDigitsAux cs (acc * 10 + (c.toNat - 48))
    else none

/-- Python `int(s)` on a string: surrounding whitespace is stripped, an
optional sign precedes a non-empty digit run. -/
def pyIntOfStr (s : String) : Option Int :=
  match (pyStrip s).data with
  | [] => none
  | '-' :: cs =>
    if cs.isEmpty then none
    else (parseDigitsAux cs 0).map (fun n => -(n : Int))
  | '+' :: cs =>
    if cs.isEmpty then none
    else (parseDigitsAux cs 0).map (fun n => (n : Int))
  | cs => (parseDigitsAux cs 0).map (fun n => (n : Int))

/-- Python `str(x)`.  The endpoints only apply `str` to values that are
already strings in every validated position (`sub`, `jti`) and to
`room_name` values; the rendering of containers is abstracted. -/
def pyStr : JVal → String
  | .null => "None"
  | .str s => s
  | .int n => toString n
  | .bool b => if b then "True" else "False"
  | .arr _ => "<list>"
  | .obj _ => "<dict>"

/-- Python `int(x)` as a partial function: `none` models a raised
`TypeError`/`ValueError`. -/
def pyInt? : JVal → Option Int
  | .null => none
  | .str s => pyIntOfStr s
  | .int n => some n
  | .bool b => some (if b then 1 else 0)
  | .arr _ => none
  | .obj _ => none

/-- Lookup in a decoded Python dict (`d.get(k)`), keys assumed unique. -/
def dictGet (l : List (String × JVal)) (k : String) : Option JVal :=
  (l.find? (fun p => p.1 == k)).map (fun p => p.2)

/-- Python `d.get(k) == v` for a string `v`: true exactly when the entry is
present and is the string `v`. -/
def dictGetEqStr (l : List (String × JVal)) (k v : String) : Bool :=
  match dictGet l k with
  | some (.str t) => t == v
  | _ => false

/-- Insertion into an association list with Python-dict update semantics:
replace in place when the key exists, append otherwise. -/
def alistSet {β : Type} (l : List (String × β)) (k : String) (v : β) :
    List (String × β) :=
  if l.any (fun p => p.1 == k) then
    l.map (fun p => if p.1 == k then (k, v) else p)
  else
    l ++ [(k, v)]

/-- Lookup in an association list. -/
def alistGet {β : Type} (l : List (String × β)) (k : String) : Option β :=
  (l.find? (fun p => p.1 == k)).map (fun p => p.2)

/-- A value held in the Redis store: a string that parses as JSON is
represented by its parse, any other string by its raw text. -/
inductive RVal where
  | json (j : JVal)
  | notJson (s : String)

/-- Python truthiness of a raw store value (`if not raw`): only the empty
string is falsy; a valid-JSON string is never empty. -/
def rvalTruthy : RVal → Bool
  | .json _ => true
  | .notJson s => !(s == "")

/-- The shared key-value store, as a keyed association list. -/
abbrev Store := List (String × RVal)

/-- Redis `GET`. -/
def storeGet (s : Store) (k : String) : Option RVal :=
  (s.find? (fun p => p.1 == k)).map (fun p => p.2)

/-- Redis `DEL` of a single key: the number of keys removed and the
resulting store. -/
def storeDel (s : Store) (k : String) : Nat × Store :=
  (if s.any (fun p => p.1 == k) then 1 else 0,
   s.filter (fun p => !(p.1 == k)))

/-- Redis `SET`. -/
def storeSet (s : Store) (k : String) (v : RVal) : Store :=
  (k, v) :: s.filter (fun p => !(p.1 == k))

/-- A store operation performed by an endpoint, for frame reasoning.
`set` carries the TTL (`ex=` argument) requested at write time. -/
inductive StoreOp where
  | get (k : String)
  | del (k : String)
  | set (k : String) (v : RVal) (ttlSeconds : Int)

-- Module-level constants of `sfu.py`.

def SFU_READ_TOKEN_TTL_SECONDS : Int := 900
def SFU_WRITE_TOKEN_TTL_SECONDS : Int := 30
def SFU_TOKEN_ISSUER : String := "romm:sfu"
/-- Embeds `SFU_JTI_REDIS_KEY_PREFIX` (renamed). -/
def SFU_JTI_KEY_BASE : String := "sfu:auth:jti:"
def SFU_TOKEN_CLOCK_SKEW_SECONDS : Int := 5
/-- Embeds `SFU_ROOM_REDIS_KEY_PREFIX` (renamed). -/
def SFU_ROOM_KEY_BASE : String := "sfu:room:"
def SFU_ROOM_TTL_SECONDS : Int := 60

/-- The JWT claim set, restricted to the claims `sfu.py` reads.  A field is
`none` when the claim is absent from the token; `some .null` models a claim
present with value `None`/`null`. -/
structure Claims where
  nbf : Option JVal := none
  exp : Option JVal := none
  iss : Option JVal := none
  type : Option JVal := none
  sub : Option JVal := none
  jti : Option JVal := none
  iat : Option JVal := none

/-- An opaque token string, abstracted per the spec's signing capability:
either its signature/encoding is invalid, or it decodes to a claim set. -/
inductive Token where
  | invalid
  | signed (claims : Claims)

/-- An HTTPException: status code and detail string. -/
structure HErr where
  status : Nat
  detail : String
deriving DecidableEq, Repr

/-- True of an optional claim value exactly when it is a non-empty string
(the Python test `claims.get(k) and isinstance(claims.get(k), str)`). -/
def strClaimNonempty : Option JVal → Bool
  | some (.str s) => !(s == "")
  | _ => false

/-- True when the `type` claim is the string `"sfu:write"` or the legacy
string `"sfu"` (the Python test on `token_type`). -/
def typeIsWriteLike (c : Claims) : Bool :=
  match c.type with
  | some (.str s) => s == "sfu:write" || s == "sfu"
  | _ => false

/-- The `nbf` check of `_decode_and_validate_sfu_jwt`: if `nbf` is present
and not `None`, it must parse as an int and not lie in the future beyond
the clock skew. -/
def checkNbf (now : Int) (c : Claims) : Except HErr Unit :=
  match c.nbf with
  | none => .ok ()
  | some .null => .ok ()
  | some v =>
    match pyInt? v with
    | none => .error ⟨401, "invalid nbf"⟩
    | some nbf =>
      if now + SFU_TOKEN_CLOCK_SKEW_SECONDS < nbf then
        .error ⟨401, "jwt not active"⟩
      else
        .ok ()

/-- The `exp` check: `exp` must be present, non-`None`, parse as an int,
and not lie in the past beyond the clock skew. -/
def checkExp (now : Int) (c : Claims) : Except HErr Unit :=
  match c.exp with
  | none => .error ⟨401, "missing exp"⟩
  | some .null => .error ⟨401, "missing exp"⟩
  | some v =>
    match pyInt? v with
    | none => .error ⟨401, "invalid exp"⟩
    | some e =>
      if now - SFU_TOKEN_CLOCK_SKEW_SECONDS ≥ e then
        .error ⟨401, "jwt expired"⟩
      else
        .ok ()

/-- The issuer check: the `iss` claim must equal the fixed issuer string. -/
def checkIss (c : Claims) : Except HErr Unit :=
  match c.iss with
  | some (.str s) =>
    if s == SFU_TOKEN_ISSUER then .ok () else .error ⟨401, "invalid issuer"⟩
  | _ => .error ⟨401, "invalid issuer"⟩

/-- The token-type check: `type` must be one of `"sfu"`, `"sfu:read"`,
`"sfu:write"`. -/
def checkType (c : Claims) : Except HErr Unit :=
  match c.type with
  | some (.str s) =>
    if s == "sfu" || s == "sfu:read" || s == "sfu:write" then .ok ()
    else .error ⟨401, "invalid token type"⟩
  | _ => .error ⟨401, "invalid token type"⟩

/-- The subject check: `sub` must be a non-empty string. -/
def checkSub (c : Claims) : Except HErr Unit :=
  if strClaimNonempty c.sub then .ok () else .error ⟨401, "missing sub"⟩

/-- The tokenId check: `jti` must be a non-empty string when the token type
is `"sfu:write"` or legacy `"sfu"`; read tokens are not checked. -/
def checkJti (c : Claims) : Except HErr Unit :=
  if typeIsWriteLike c then
    if strClaimNonempty c.jti then .ok () else .error ⟨401, "missing jti"⟩
  else
    .ok ()

/-- Embeds `_decode_and_validate_sfu_jwt`: signature verification followed
by the time-window and claim checks, in source order. -/
def decodeAndValidateSfuJwt (now : Int) (tok : Token) : Except HErr Claims :=
  match tok with
  | .invalid => .error ⟨401, "invalid token"⟩
  | .signed c =>
    match checkNbf now c with
    | .error e => .error e
    | .ok _ =>
    match checkExp now c with
    | .error e => .error e
    | .ok _ =>
    match checkIss c with
    | .error e => .error e
    | .ok _ =>
    match checkType c with
    | .error e => .error e
    | .ok _ =>
    match checkSub c with
    | .error e => .error e
    | .ok _ =>
    match checkJti c with
    | .error e => .error e
    | .ok _ => .ok c

/-- The response body of `/sfu/internal/verify`. -/
structure SFUVerifyResponse where
  sub : String
  netplay_username : Option String
deriving DecidableEq, Repr

/-- True when a dynamic value equals a given string (Python `==` between a
claim value and a string literal). -/
def jvalIsStr (v : JVal) (s : String) : Bool :=
  match v with
  | .str t => t == s
  | _ => false

/-- The stored-record cross-check of `sfu_internal_verify` (lines 172-180):
the record's `sub` and `jti` must match the token's claims; on success the
response carries no alias. -/
def verifyStoredData (data : List (String × JVal)) (sub jti : String) :
    Except HErr SFUVerifyResponse :=
  if !(dictGetEqStr data "sub" sub) then .error ⟨401, "sub mismatch"⟩
  else if !(dictGetEqStr data "jti" jti) then .error ⟨401, "jti mismatch"⟩
  else .ok ⟨sub, none⟩

/-- The parse of the stored marker value (lines 151-163): a JSON object is
used as the record (old format); any other stored value has the record
reconstructed from the token's own `sub` and `jti` claims. -/
def storedToData (stored : RVal) (sub jti : String) : List (String × JVal) :=
  match stored with
  | .json (.obj fields) => fields
  | .json _ => [("sub", .str sub), ("jti", .str jti)]
  | .notJson _ => [("sub", .str sub), ("jti", .str jti)]

/-- The marker lookup and optional consumption (lines 143-180), after the
jti has been extracted: absence of the marker fails; with `consume`, the
marker is removed by an atomic delete whose zero count fails the call; the
stored record is then cross-checked against the claims. -/
def verifyLookup (s : Store) (sub jti : String) (consume : Bool) :
    Except HErr SFUVerifyResponse × Store × List StoreOp :=
  match storeGet s (SFU_JTI_KEY_BASE ++ jti) with
  | none =>
    (.error ⟨401, "token not listed, already consumed or doesn't exist"⟩,
     s, [.get (SFU_JTI_KEY_BASE ++ jti)])
  | some stored =>
    if consume then
      if (storeDel s (SFU_JTI_KEY_BASE ++ jti)).1 == 0 then
        (.error ⟨401, "token already used or not found"⟩,
         (storeDel s (SFU_JTI_KEY_BASE ++ jti)).2,
         [.get (SFU_JTI_KEY_BASE ++ jti), .del (SFU_JTI_KEY_BASE ++ jti)])
      else
        (verifyStoredData (storedToData stored sub jti) sub jti,
         (storeDel s (SFU_JTI_KEY_BASE ++ jti)).2,
         [.get (SFU_JTI_KEY_BASE ++ jti), .del (SFU_JTI_KEY_BASE ++ jti)])
    else
      (verifyStoredData (storedToData stored sub jti) sub jti, s,
       [.get (SFU_JTI_KEY_BASE ++ jti)])

/-- The write-token tail of `sfu_internal_verify` (lines 138-180): an
empty jti fails, otherwise the marker lookup and consumption run. -/
def verifyWritePath (s : Store) (claims : Claims) (consume : Bool) :
    Except HErr SFUVerifyResponse × Store × List StoreOp :=
  if pyStr (claims.jti.getD (.str "")) == "" then
    (.error ⟨401, "missing jti for write token"⟩, s, [])
  else
    verifyLookup s (pyStr (claims.sub.getD .null))
      (pyStr (claims.jti.getD (.str ""))) consume

/-- Embeds the body of `sfu_internal_verify` (after the service-secret
gate): decode and validate the token; read tokens return immediately from
claims; write-path tokens continue into `verifyWritePath`. -/
def sfuInternalVerify (now : Int) (s : Store) (tok : Token) (consume : Bool) :
    Except HErr SFUVerifyResponse × Store × List StoreOp :=
  match decodeAndValidateSfuJwt now tok with
  | .error e => (.error e, s, [])
  | .ok claims =>
    if jvalIsStr (claims.type.getD (.str "sfu")) "sfu:read" then
      (.ok ⟨pyStr (claims.sub.getD .null), none⟩, s, [])
    else
      verifyWritePath s claims consume

/-- A single call to the verify endpoint: the presented token and the
requested `consume` flag. -/
structure VerifyCall where
  token : Token
  consume : Bool

/-- Runs a sequence of verify calls against the store in order, threading
the store state, and pairs each call with its outcome. -/
def runPairs (now : Int) (s : Store) :
    List VerifyCall → List (VerifyCall × Except HErr SFUVerifyResponse)
  | [] => []
  | c :: rest =>
    (c, (sfuInternalVerify now s c.token c.consume).1) ::
      runPairs now (sfuInternalVerify now s c.token c.consume).2.1 rest

/-- True of a call that verifies with `consume=true` a signed write-path
token (type `sfu:write` or legacy `sfu`) bearing the given tokenId. -/
def consumingWriteOn (tid : String) (c : VerifyCall) : Bool :=
  c.consume &&
    match c.token with
    | .signed cl => typeIsWriteLike cl && (pyStr (cl.jti.getD (.str "")) == tid)
    | .invalid => false

/-- True of a successful endpoint outcome. -/
def isOkResp {α : Type} : Except HErr α → Bool
  | .ok _ => true
  | .error _ => false

/-- True of an outcome that failed with HTTP status 401 (Unauthorized). -/
def is401 {α : Type} : Except HErr α → Bool
  | .error e => e.status == 401
  | .ok _ => false

-- Alias resolution (`_get_netplay_username_from_ui_settings`) and minting.

/-- The loop body of `_get_netplay_username_from_ui_settings`: return the
first candidate that is a string with non-empty trim, trimmed. -/
def firstGoodCandidate : List (Option JVal) → Option String
  | [] => none
  | c :: rest =>
    match c with
    | some (.str s) =>
      let value := pyStrip s
      if !(value == "") then some value else firstGoodCandidate rest
    | _ => firstGoodCandidate rest

/-- Embeds `_get_netplay_username_from_ui_settings`: try the historical key
spellings in order and take the first non-empty trimmed string. -/
def get_netplay_username_from_ui_settings
    (ui_settings : Option (List (String × JVal))) : Option String :=
  match ui_settings with
  | none => none
  | some l =>
    if l.isEmpty then none
    else
      firstGoodCandidate
        [dictGet l "netplay_username",
         dictGet l "netplayUsername",
         dictGet l "settings.netplayUsername",
         dictGet l "settings.netplay_username"]

/-- The candidate keys, in the fixed priority order the spec names. -/
def aliasKeyOrder : List String :=
  ["netplay_username", "netplayUsername",
   "settings.netplayUsername", "settings.netplay_username"]

/-- A candidate key qualifies when its value is a string that is non-empty
after trimming. -/
def aliasKeyQualifies (l : List (String × JVal)) (k : String) : Bool :=
  match dictGet l k with
  | some (.str s) => !(pyStrip s == "")
  | _ => false

/-- Alias resolution as the spec words it: the trimmed value of the first
key, in the fixed order, whose value is a string non-empty after trimming;
no alias when the mapping is absent or no candidate qualifies. -/
def specResolvedAlias (ui_settings : Option (List (String × JVal))) :
    Option String :=
  match ui_settings with
  | none => none
  | some l =>
    match aliasKeyOrder.find? (aliasKeyQualifies l) with
    | none => none
    | some k =>
      match dictGet l k with
      | some (.str s) => some (pyStrip s)
      | _ => none

/-- The authenticated principal handed to `mint_sfu_token` by the session
layer: a username and the stored `ui_settings` preferences mapping. -/
structure User where
  username : String
  ui_settings : Option (List (String × JVal))

/-- Modelled from the spec: `oauth_handler.create_oauth_token` lives in
`handler/auth`, which is not among the sources here.  Per the spec (§3,
§4.1) it signs the claim set into an opaque token whose expiry claim is
the issuance time plus `expires_delta`, so that `expiresAt - issuedAt`
equals the requested TTL. -/
def create_oauth_token (now : Int) (data : Claims)
    (expiresDeltaSeconds : Int) : Token :=
  .signed { data with exp := some (.int (now + expiresDeltaSeconds)) }

/-- The response body of `/sfu/token`. -/
structure SFUTokenResponse where
  token : Token
  token_type : String
  expires : Int

/-- Embeds the body of `mint_sfu_token`.  `freshJti` stands for the
`uuid4().hex` value generated for this request and `storeWriteOk` for the
availability of the store: when the marker write raises, the exception
propagates and no token is returned (modelled as a 500 error).  The
resolved netplay alias is computed and then never used — the marker
written for a write token is the plain string `"0"` (which parses as the
JSON number 0), with TTL equal to the write-token TTL. -/
def mint_sfu_token (now : Int) (freshJti : String) (user : User)
    (token_type : String) (s : Store) (storeWriteOk : Bool) :
    Except HErr SFUTokenResponse × Store × List StoreOp :=
  if !(token_type == "read" || token_type == "write") then
    (.error ⟨400, "token_type must be 'read' or 'write'"⟩, s, [])
  else
    let rd := token_type == "read"
    let expiresDelta : Int :=
      if rd then SFU_READ_TOKEN_TTL_SECONDS else SFU_WRITE_TOKEN_TTL_SECONDS
    let token_type_claim : String := if rd then "sfu:read" else "sfu:write"
    let expires_seconds : Int :=
      if rd then SFU_READ_TOKEN_TTL_SECONDS else SFU_WRITE_TOKEN_TTL_SECONDS
    let _netplay_username :=
      get_netplay_username_from_ui_settings user.ui_settings
    let token_data : Claims :=
      { sub := some (.str user.username),
        iss := some (.str SFU_TOKEN_ISSUER),
        type := some (.str token_type_claim),
        iat := some (.int now),
        jti := if rd then none else some (.str freshJti) }
    let token := create_oauth_token now token_data expiresDelta
    if rd then
      (.ok ⟨token, "bearer", expires_seconds⟩, s, [])
    else
      let key := SFU_JTI_KEY_BASE ++ freshJti
      if storeWriteOk then
        (.ok ⟨token, "bearer", expires_seconds⟩,
         storeSet s key (.json (.int 0)),
         [.set key (.json (.int 0)) SFU_WRITE_TOKEN_TTL_SECONDS])
      else
        (.error ⟨500, "store write failed"⟩, s,
         [.set key (.json (.int 0)) SFU_WRITE_TOKEN_TTL_SECONDS])

-- Room listing (`sfu_internal_rooms_list`).

/-- The summary dict built for one decoded room record: every field except
the `updatedAt` bookkeeping timestamp. -/
def roomSummary (nameVal : JVal) (fields : List (String × JVal)) :
    List (String × JVal) :=
  [("room_name", nameVal),
   ("current", (dictGet fields "current").getD (.int 0)),
   ("max", (dictGet fields "max").getD (.int 0)),
   ("hasPassword", .bool (pyTruthy ((dictGet fields "hasPassword").getD .null))),
   ("nodeId", (dictGet fields "nodeId").getD .null),
   ("url", (dictGet fields "url").getD .null)]

/-- The loop body of `sfu_internal_rooms_list` over the scanned key/value
pairs: falsy raw values are skipped, values that fail `json.loads` are
skipped, and a decoded record with a falsy `room_name` has its name
recovered from the key.  A value that parses as JSON but is not an object
raises `AttributeError` at `parsed.get` (outside the try), failing the
whole listing; this is modelled as a 500 error. -/
def listRoomsGo : List (String × RVal) →
    List (String × List (String × JVal)) →
    Except HErr (List (String × List (String × JVal)))
  | [], out => .ok out
  | (k, v) :: rest, out =>
    if !(rvalTruthy v) then listRoomsGo rest out
    else
      match v with
      | .notJson _ => listRoomsGo rest out
      | .json j =>
        match j with
        | .obj fields =>
          if pyTruthy ((dictGet fields "room_name").getD .null) then
            listRoomsGo rest
              (alistSet out (pyStr ((dictGet fields "room_name").getD .null))
                (roomSummary ((dictGet fields "room_name").getD .null) fields))
          else
            listRoomsGo rest
              (alistSet out (k.drop SFU_ROOM_KEY_BASE.length)
                (roomSummary (.str (k.drop SFU_ROOM_KEY_BASE.length)) fields))
        | _ => .error ⟨500, "AttributeError"⟩

/-- Embeds the body of `sfu_internal_rooms_list` (after the service-secret
gate): the cursor-based SCAN over keys matching the room-key pattern is
modelled as one pass over the store entries whose key starts with the room
key base, followed by the MGET/decode loop. -/
def sfu_internal_rooms_list (s : Store) :
    Except HErr (List (String × List (String × JVal))) :=
  listRoomsGo (s.filter (fun p => strStartsWith p.1 SFU_ROOM_KEY_BASE)) []

/-- The name under which a decoded room record appears in the listing:
the embedded `room_name` when truthy, otherwise recovered from the key by
stripping the room key base. -/
def roomOutName (k : String) (fields : List (String × JVal)) : String :=
  if pyTruthy ((dictGet fields "room_name").getD .null) then
    pyStr ((dictGet fields "room_name").getD .null)
  else k.drop SFU_ROOM_KEY_BASE.length

-- Concrete fixtures used by witnesses and counterexamples.

/-- A well-formed write-token claim set (as minted at time 1000 with a
30-second TTL would carry `exp = 1030`; any future `exp` works here). -/
def exWriteClaims : Claims :=
  { exp := some (.int 2000), iss := some (.str "romm:sfu"),
    type := some (.str "sfu:write"), sub := some (.str "alice"),
    jti := some (.str "t1"), iat := some (.int 1000) }

/-- A well-formed legacy-type (`"sfu"`) claim set. -/
def exLegacyClaims : Claims :=
  { exp := some (.int 2000), iss := some (.str "romm:sfu"),
    type := some (.str "sfu"), sub := some (.str "carol"),
    jti := some (.str "t2"), iat := some (.int 1000) }

/-- A well-formed read-token claim set that also carries a tokenId. -/
def exReadClaimsWithJti : Claims :=
  { exp := some (.int 2000), iss := some (.str "romm:sfu"),
    type := some (.str "sfu:read"), sub := some (.str "bob"),
    jti := some (.str "t1"), iat := some (.int 1000) }

/-- A well-formed read-token claim set without a tokenId. -/
def exReadClaims : Claims :=
  { exp := some (.int 2000), iss := some (.str "romm:sfu"),
    type := some (.str "sfu:read"), sub := some (.str "dave"),
    iat := some (.int 1000) }

/-- A store holding exactly the single-use marker for tokenId `t1`, with
the value `"0"` that `mint_sfu_token` writes. -/
def exMarkerStore : Store := [("sfu:auth:jti:t1", .json (.int 0))]

/-- An example principal whose preferences carry a netplay username. -/
def exUser : User :=
  ⟨"alice", some [("netplay_username", .str "TestNetplayName")]⟩

/-- A store with two decodable room records (one missing its embedded
room name, one carrying an internal `updatedAt` timestamp), one
undecodable record, and one unrelated key. -/
def exRoomStore : Store :=
  [("sfu:room:r1", .json (.obj [("room_name", .str "r1"),
                                ("updatedAt", .int 999)])),
   ("sfu:room:bad", .notJson "garbage"),
   ("sfu:room:r3", .json (.obj [("current", .int 2)])),
   ("other:key", .json (.int 7))]

/-- The listing produced for `exRoomStore`: the undecodable record is
skipped, `r3` is recovered from its key, and no summary carries
`updatedAt`. -/
def exRoomsOut : List (String × List (String × JVal)) :=
  [("r1", [("room_name", .str "r1"), ("current", .int 0), ("max", .int 0),
           ("hasPassword", .bool false), ("nodeId", .null),
           ("url", .null)]),
   ("r3", [("room_name", .str "r3"), ("current", .int 2), ("max", .int 0),
           ("hasPassword", .bool false), ("nodeId", .null),
           ("url", .null)])]

-- Basic store lemmas.

theorem storeGet_filter_none (s : Store) (f : String × RVal → Bool)
    (k : String) (h : storeGet s k = none) :
    storeGet (s.filter f) k = none := by
  unfold storeGet at *
  rcases hf : (s.filter f).find? (fun p => p.1 == k) with _ | p
  · simp [hf]
  · exfalso
    have hp := List.find?_some hf
    have hmem : p ∈ s.filter f := List.mem_of_find?_eq_some hf
    have hmem' : p ∈ s := List.mem_of_mem_filter hmem
    rcases hg : s.find? (fun p => p.1 == k) with _ | q
    · have := List.find?_eq_none.mp hg p hmem'
      exact this hp
    · simp [hg] at h

theorem storeGet_filter_self (s : Store) (k : String) :
    storeGet (s.filter (fun p => !(p.1 == k))) k = none := by
  unfold storeGet
  rcases hf : (s.filter (fun p => !(p.1 == k))).find? (fun p => p.1 == k)
      with _ | p
  · simp
  · exfalso
    have hp := List.find?_some hf
    have hmem : p ∈ s.filter (fun p => !(p.1 == k)) :=
      List.mem_of_find?_eq_some hf
    have := List.of_mem_filter hmem
    simp [hp] at this

theorem storeDel_snd (s : Store) (k : String) :
    (storeDel s k).2 = s.filter (fun p => !(p.1 == k)) := rfl

-- Shape of the type test.

theorem typeIsWriteLike_spec (c : Claims) (h : typeIsWriteLike c = true) :
    c.type = some (.str "sfu:write") ∨ c.type = some (.str "sfu") := by
  unfold typeIsWriteLike at h
  rcases ht : c.type with _ | v
  · rw [ht] at h; simp at h
  · rw [ht] at h
    cases v with
    | str t =>
      simp at h
      rcases h with h | h
      · left; rw [h]
      · right; rw [h]
    | null => simp at h
    | int n => simp at h
    | bool b => simp at h
    | arr xs => simp at h
    | obj fs => simp at h

-- The possible errors of each structural check.

theorem checkNbf_error_cases (now : Int) (c : Claims) (e : HErr)
    (h : checkNbf now c = .error e) :
    e = ⟨401, "invalid nbf"⟩ ∨ e = ⟨401, "jwt not active"⟩ := by
  unfold checkNbf at h
  repeat' split at h
  all_goals simp_all

theorem checkExp_error_cases (now : Int) (c : Claims) (e : HErr)
    (h : checkExp now c = .error e) :
    e = ⟨401, "missing exp"⟩ ∨ e = ⟨401, "invalid exp"⟩ ∨
      e = ⟨401, "jwt expired"⟩ := by
  unfold checkExp at h
  repeat' split at h
  all_goals simp_all

theorem checkIss_error_cases (c : Claims) (e : HErr)
    (h : checkIss c = .error e) : e = ⟨401, "invalid issuer"⟩ := by
  unfold checkIss at h
  repeat' split at h
  all_goals simp_all

theorem checkType_error_cases (c : Claims) (e : HErr)
    (h : checkType c = .error e) : e = ⟨401, "invalid token type"⟩ := by
  unfold checkType at h
  repeat' split at h
  all_goals simp_all

theorem checkSub_error_cases (c : Claims) (e : HErr)
    (h : checkSub c = .error e) : e = ⟨401, "missing sub"⟩ := by
  unfold checkSub at h
  repeat' split at h
  all_goals simp_all

theorem checkJti_error_cases (c : Claims) (e : HErr)
    (h : checkJti c = .error e) : e = ⟨401, "missing jti"⟩ := by
  unfold checkJti at h
  repeat' split at h
  all_goals simp_all

/-- A successful decode returns the token's own claim set unchanged. -/
theorem decode_ok_eq (now : Int) (c c' : Claims)
    (h : decodeAndValidateSfuJwt now (.signed c) = .ok c') : c' = c := by
  unfold decodeAndValidateSfuJwt at h
  repeat' split at h
  all_goals simp_all

/-- A decode failure on a signed token originates in one of the six
structural checks, with the error passed through unchanged. -/
theorem decode_error_origin (now : Int) (c : Claims) (e : HErr)
    (h : decodeAndValidateSfuJwt now (.signed c) = .error e) :
    checkNbf now c = .error e ∨ checkExp now c = .error e ∨
    checkIss c = .error e ∨ checkType c = .error e ∨
    checkSub c = .error e ∨ checkJti c = .error e := by
  unfold decodeAndValidateSfuJwt at h
  repeat' split at h
  all_goals simp_all

/-- Every failure of `_decode_and_validate_sfu_jwt` is an Unauthorized
(401) error, and its reason is none of the store-phase reasons. -/
theorem decode_error_props (now : Int) (tok : Token) (e : HErr)
    (h : decodeAndValidateSfuJwt now tok = .error e) :
    e.status = 401 ∧ e.detail ≠ "sub mismatch" ∧ e.detail ≠ "jti mismatch" ∧
      e.detail ≠ "token already used or not found" := by
  cases tok with
  | invalid =>
    simp only [decodeAndValidateSfuJwt, Except.error.injEq] at h
    subst h
    exact ⟨rfl, by decide, by decide, by decide⟩
  | signed c =>
    rcases decode_error_origin now c e h with h1 | h1 | h1 | h1 | h1 | h1
    · rcases checkNbf_error_cases now c e h1 with h2 | h2 <;>
        (subst h2; exact ⟨rfl, by decide, by decide, by decide⟩)
    · rcases checkExp_error_cases now c e h1 with h2 | h2 | h2 <;>
        (subst h2; exact ⟨rfl, by decide, by decide, by decide⟩)
    · have h2 := checkIss_error_cases c e h1
      subst h2; exact ⟨rfl, by decide, by decide, by decide⟩
    · have h2 := checkType_error_cases c e h1
      subst h2; exact ⟨rfl, by decide, by decide, by decide⟩
    · have h2 := checkSub_error_cases c e h1
      subst h2; exact ⟨rfl, by decide, by decide, by decide⟩
    · have h2 := checkJti_error_cases c e h1
      subst h2; exact ⟨rfl, by decide, by decide, by decide⟩

-- Reduction lemmas for the verify endpoint.

/-- A decode failure short-circuits verification: no store access. -/
theorem verify_decode_error (now : Int) (s : Store) (tok : Token)
    (consume : Bool) (e : HErr)
    (hd : decodeAndValidateSfuJwt now tok = .error e) :
    sfuInternalVerify now s tok consume = (.error e, s, []) := by
  unfold sfuInternalVerify
  rw [hd]

/-- A validated read token returns the subject from the claims alone. -/
theorem verify_decode_read (now : Int) (s : Store) (tok : Token)
    (consume : Bool) (cl : Claims)
    (hd : decodeAndValidateSfuJwt now tok = .ok cl)
    (hty : cl.type = some (.str "sfu:read")) :
    sfuInternalVerify now s tok consume =
      (.ok ⟨pyStr (cl.sub.getD .null), none⟩, s, []) := by
  unfold sfuInternalVerify
  rw [hd]
  simp only [hty, Option.getD_some]
  rw [show jvalIsStr (.str "sfu:read") "sfu:read" = true from rfl]
  simp

/-- A validated token of any non-read type continues into the write path. -/
theorem verify_decode_write (now : Int) (s : Store) (tok : Token)
    (consume : Bool) (cl : Claims) (t : String)
    (hd : decodeAndValidateSfuJwt now tok = .ok cl)
    (hty : cl.type = some (.str t)) (hne : (t == "sfu:read") = false) :
    sfuInternalVerify now s tok consume = verifyWritePath s cl consume := by
  unfold sfuInternalVerify
  rw [hd]
  simp only [hty, Option.getD_some]
  rw [show jvalIsStr (.str t) "sfu:read" = (t == "sfu:read") from rfl, hne]
  simp

-- Frame lemmas about the write path's store effects.

/-- The marker lookup never writes a key into the store. -/
theorem lookup_preserves_absent (s : Store) (sub jti : String)
    (consume : Bool) (k : String) (h : storeGet s k = none) :
    storeGet (verifyLookup s sub jti consume).2.1 k = none := by
  unfold verifyLookup
  repeat' split
  all_goals simp only [storeDel_snd]
  all_goals first
    | exact h
    | exact storeGet_filter_none _ _ _ h

/-- The write path never writes a key into the store. -/
theorem writePath_preserves_absent (s : Store) (cl : Claims)
    (consume : Bool) (k : String) (h : storeGet s k = none) :
    storeGet (verifyWritePath s cl consume).2.1 k = none := by
  unfold verifyWritePath
  split
  · exact h
  · exact lookup_preserves_absent _ _ _ _ _ h

/-- When the single-use marker for the token's jti is absent, the write
path fails with a 401. -/
theorem writePath_absent_401 (s : Store) (cl : Claims) (consume : Bool)
    (h : storeGet s (SFU_JTI_KEY_BASE ++ pyStr (cl.jti.getD (.str ""))) =
      none) :
    is401 (verifyWritePath s cl consume).1 = true := by
  unfold verifyWritePath
  split
  · rfl
  · unfold verifyLookup
    rw [h]
    rfl

/-- A consuming pass through the marker lookup either fails because the
marker is absent, or leaves the store with the marker key filtered out. -/
theorem lookup_consume_shape (s : Store) (sub jti : String) :
    (verifyLookup s sub jti true).1 =
        .error ⟨401, "token not listed, already consumed or doesn't exist"⟩ ∨
    (verifyLookup s sub jti true).2.1 =
        s.filter (fun p => !(p.1 == SFU_JTI_KEY_BASE ++ jti)) := by
  unfold verifyLookup
  repeat' split
  all_goals first
    | (left; rfl)
    | (right; exact storeDel_snd _ _)
    | simp_all

/-- A consuming pass through the write path that returns success leaves the
marker key absent. -/
theorem writePath_consume_ok_absent (s : Store) (cl : Claims)
    (hok : isOkResp (verifyWritePath s cl true).1 = true) :
    storeGet (verifyWritePath s cl true).2.1
      (SFU_JTI_KEY_BASE ++ pyStr (cl.jti.getD (.str ""))) = none := by
  unfold verifyWritePath at hok ⊢
  rcases hjti : (pyStr (cl.jti.getD (JVal.str "")) == "") with _ | _
  · simp only [hjti, Bool.false_eq_true, if_false] at hok ⊢
    rcases lookup_consume_shape s (pyStr (cl.sub.getD .null))
        (pyStr (cl.jti.getD (.str ""))) with h1 | h1
    · rw [h1] at hok; simp [isOkResp] at hok
    · rw [h1]; exact storeGet_filter_self _ _
  · simp only [hjti, if_true] at hok
    simp [isOkResp] at hok

-- Lifted to the verify endpoint, for write-path tokens.

/-- Verification never writes a key into the store. -/
theorem verify_preserves_absent (now : Int) (s : Store) (tok : Token)
    (consume : Bool) (k : String) (h : storeGet s k = none) :
    storeGet (sfuInternalVerify now s tok consume).2.1 k = none := by
  unfold sfuInternalVerify
  repeat' split
  all_goals first
    | exact h
    | exact writePath_preserves_absent _ _ _ _ h

/-- With no single-use marker in the store for the token's jti, a verify
call on a write-path token fails with a 401, whatever `consume` is. -/
theorem verify_absent_401 (now : Int) (s : Store) (cl : Claims)
    (consume : Bool) (tid : String) (hw : typeIsWriteLike cl = true)
    (ht : pyStr (cl.jti.getD (.str "")) = tid)
    (h : storeGet s (SFU_JTI_KEY_BASE ++ tid) = none) :
    is401 (sfuInternalVerify now s (.signed cl) consume).1 = true := by
  subst ht
  rcases hd : decodeAndValidateSfuJwt now (.signed cl) with e | c
  · rw [verify_decode_error now s _ consume e hd]
    have := (decode_error_props now _ e hd).1
    simp [is401, this]
  · have hceq : c = cl := decode_ok_eq now cl c hd
    subst c
    rcases typeIsWriteLike_spec cl hw with hty | hty
    · rw [verify_decode_write now s _ consume cl "sfu:write" hd hty
        (by decide)]
      exact writePath_absent_401 s cl consume h
    · rw [verify_decode_write now s _ consume cl "sfu" hd hty (by decide)]
      exact writePath_absent_401 s cl consume h

/-- A successful consuming verification of a write-path token leaves the
marker key absent. -/
theorem verify_consume_ok_absent (now : Int) (s : Store) (cl : Claims)
    (tid : String) (hw : typeIsWriteLike cl = true)
    (ht : pyStr (cl.jti.getD (.str "")) = tid)
    (hok : isOkResp (sfuInternalVerify now s (.signed cl) true).1 = true) :
    storeGet (sfuInternalVerify now s (.signed cl) true).2.1
      (SFU_JTI_KEY_BASE ++ tid) = none := by
  subst ht
  rcases hd : decodeAndValidateSfuJwt now (.signed cl) with e | c
  · rw [verify_decode_error now s _ true e hd] at hok
    simp [isOkResp] at hok
  · have hceq : c = cl := decode_ok_eq now cl c hd
    subst c
    rcases typeIsWriteLike_spec cl hw with hty | hty
    · rw [verify_decode_write now s _ true cl "sfu:write" hd hty
        (by decide)] at hok ⊢
      exact writePath_consume_ok_absent s cl hok
    · rw [verify_decode_write now s _ true cl "sfu" hd hty (by decide)]
        at hok ⊢
      exact writePath_consume_ok_absent s cl hok

-- Lemmas about runs of verify calls.

/-- A 401 outcome is not a success. -/
theorem is401_not_ok {α : Type} (r : Except HErr α) (h : is401 r = true) :
    isOkResp r = false := by
  cases r <;> simp_all [is401, isOkResp]

/-- Once the single-use marker for a tokenId is absent, every consuming
write-path verify call on that tokenId in the rest of the run fails with a
401. -/
theorem runPairs_absent (now : Int) (tid : String) :
    ∀ (calls : List VerifyCall) (s : Store),
      storeGet s (SFU_JTI_KEY_BASE ++ tid) = none →
      ∀ p ∈ runPairs now s calls, consumingWriteOn tid p.1 = true →
        is401 p.2 = true := by
  intro calls
  induction calls with
  | nil =>
    intro s _ p hp
    simp [runPairs] at hp
  | cons c rest ih =>
    intro s h p hp hcw
    simp only [runPairs, List.mem_cons] at hp
    rcases hp with hp | hp
    · subst hp
      rcases c with ⟨tok, consume⟩
      cases tok with
      | invalid => simp [consumingWriteOn] at hcw
      | signed cl =>
        simp only [consumingWriteOn, Bool.and_eq_true, beq_iff_eq] at hcw
        exact verify_absent_401 now s cl consume tid hcw.2.1 hcw.2.2 h
    · exact ih (sfuInternalVerify now s c.token c.consume).2.1
        (verify_preserves_absent now s c.token c.consume _ h) p hp hcw

/-- After a successful consuming write-path verification of a tokenId,
every later consuming write-path verify call on that tokenId in the run
fails with a 401. -/
theorem runPairs_after_ok (now : Int) (tid : String) :
    ∀ (calls : List VerifyCall) (s : Store) l₁
      (p : VerifyCall × Except HErr SFUVerifyResponse) l₂,
      runPairs now s calls = l₁ ++ p :: l₂ →
      consumingWriteOn tid p.1 = true → isOkResp p.2 = true →
      ∀ q ∈ l₂, consumingWriteOn tid q.1 = true → is401 q.2 = true := by
  intro calls
  induction calls with
  | nil =>
    intro s l₁ p l₂ h
    simp [runPairs] at h
  | cons c rest ih =>
    intro s l₁ p l₂ h hcw hok q hq hqcw
    rw [runPairs] at h
    cases l₁ with
    | nil =>
      simp only [List.nil_append, List.cons.injEq] at h
      obtain ⟨hp, hl₂⟩ := h
      subst hp
      subst hl₂
      rcases c with ⟨tok, consume⟩
      simp only [consumingWriteOn] at hcw
      rcases tok with _ | cl
      · simp at hcw
      · simp only [Bool.and_eq_true, beq_iff_eq] at hcw
        obtain ⟨hcons, hw, htid⟩ := hcw
        subst hcons
        have habs := verify_consume_ok_absent now s cl tid hw htid hok
        exact runPairs_absent now tid rest _ habs q hq hqcw
    | cons x l₁' =>
      simp only [List.cons_append, List.cons.injEq] at h
      exact ih _ l₁' p l₂ h.2 hcw hok q hq hqcw

/-- In a list where no element after a good one is good, at most one
element is good. -/
theorem countP_le_one_of_no_later {α : Type} (good : α → Bool) :
    ∀ l : List α,
      (∀ l₁ (p : α) l₂, l = l₁ ++ p :: l₂ → good p = true →
        ∀ q ∈ l₂, good q = false) →
      l.countP good ≤ 1 := by
  intro l
  induction l with
  | nil => intro _; simp
  | cons a l ih =>
    intro h
    by_cases ha : good a = true
    · rw [List.countP_cons_of_pos _ _ ha]
      have hz := h [] a l rfl ha
      have h0 : l.countP good = 0 := by
        rw [List.countP_eq_zero]
        intro q hq
        simp [hz q hq]
      omega
    · rw [List.countP_cons_of_neg _ _ (by simpa using ha)]
      exact ih (fun l₁ p l₂ heq hp q hq =>
        h (a :: l₁) p l₂ (by rw [heq]; rfl) hp q hq)

-- Claim C1.

/-- C1, counterexample to the claim as stated.  The claim demands that
when no single-use marker exists in the store for a tokenId, every verify
with consume=true on a token bearing that tokenId fails with Unauthorized.
But a token of type `sfu:read` bearing that tokenId succeeds: the read
path ignores both the store and `consume`. -/
theorem c1_consume_counterexample :
    exReadClaimsWithJti.jti = some (.str "t1") ∧
    storeGet ([] : Store) (SFU_JTI_KEY_BASE ++ "t1") = none ∧
    (sfuInternalVerify 1000 [] (.signed exReadClaimsWithJti) true).1 =
      .ok ⟨"bob", none⟩ :=
  ⟨rfl, rfl, rfl⟩

/-- C1 as amended: restricted to write-capability tokens (type `sfu:write`
or legacy `sfu`), at most one consuming verification per tokenId ever
succeeds across a sequence of verify calls; when the marker is absent
every consuming write-path call on that tokenId fails with a 401, and
after one consuming write-path call succeeds every later one fails with a
401. -/
theorem c1_consume_at_most_once (now : Int) (s : Store)
    (calls : List VerifyCall) (tid : String) :
    (storeGet s (SFU_JTI_KEY_BASE ++ tid) = none →
      ∀ p ∈ runPairs now s calls, consumingWriteOn tid p.1 = true →
        is401 p.2 = true)
    ∧ (∀ l₁ (p : VerifyCall × Except HErr SFUVerifyResponse) l₂,
        runPairs now s calls = l₁ ++ p :: l₂ →
        consumingWriteOn tid p.1 = true → isOkResp p.2 = true →
        ∀ q ∈ l₂, consumingWriteOn tid q.1 = true → is401 q.2 = true)
    ∧ (runPairs now s calls).countP
        (fun p => consumingWriteOn tid p.1 && isOkResp p.2) ≤ 1 := by
  refine ⟨fun h p hp => runPairs_absent now tid calls s h p hp,
          fun l₁ p l₂ h => runPairs_after_ok now tid calls s l₁ p l₂ h,
          ?_⟩
  apply countP_le_one_of_no_later
  intro l₁ p l₂ heq hp q hq
  simp only [Bool.and_eq_true] at hp
  by_cases hcw : consumingWriteOn tid q.1 = true
  · have h401 := runPairs_after_ok now tid calls s l₁ p l₂ heq hp.1 hp.2
      q hq hcw
    simp [is401_not_ok q.2 h401]
  · have hf : consumingWriteOn tid q.1 = false := by simpa using hcw
    simp [hf]

/-- C1, witness: with the marker for `t1` present, a first consuming
verification of the write token succeeds and a second consuming
verification of the same token fails with a 401. -/
theorem c1_consume_at_most_once_witness :
    isOkResp (sfuInternalVerify 1000 exMarkerStore
      (.signed exWriteClaims) true).1 = true ∧
    is401 (sfuInternalVerify 1000
      (sfuInternalVerify 1000 exMarkerStore (.signed exWriteClaims) true).2.1
      (.signed exWriteClaims) true).1 = true := by
  refine ⟨rfl, ?_⟩
  have h := (c1_consume_at_most_once 1000 exMarkerStore
      [⟨.signed exWriteClaims, true⟩, ⟨.signed exWriteClaims, true⟩]
      "t1").2.1
  exact h []
    (⟨.signed exWriteClaims, true⟩,
      (sfuInternalVerify 1000 exMarkerStore (.signed exWriteClaims) true).1)
    [(⟨.signed exWriteClaims, true⟩,
      (sfuInternalVerify 1000
        (sfuInternalVerify 1000 exMarkerStore
          (.signed exWriteClaims) true).2.1
        (.signed exWriteClaims) true).1)]
    rfl rfl rfl _ (List.mem_singleton.mpr rfl) rfl

/-- A successful decode implies every structural check passed. -/
theorem decode_ok_all_checks (now : Int) (c c' : Claims)
    (h : decodeAndValidateSfuJwt now (.signed c) = .ok c') :
    checkNbf now c = .ok () ∧ checkExp now c = .ok () ∧
    checkIss c = .ok () ∧ checkType c = .ok () ∧
    checkSub c = .ok () ∧ checkJti c = .ok () := by
  unfold decodeAndValidateSfuJwt at h
  repeat' split at h
  all_goals simp_all

-- Claim C3.

/-- C3, counterexample to the claim as stated.  The claim demands that a
token with capability `read` carrying a non-empty tokenId fail with
Unauthorized; but structural validation only requires a tokenId for
write-like types and never rejects one on a read token, so the token
validates and verification succeeds. -/
theorem c3_tokenid_iff_counterexample :
    exReadClaimsWithJti.type = some (.str "sfu:read") ∧
    exReadClaimsWithJti.jti = some (.str "t1") ∧
    decodeAndValidateSfuJwt 1000 (.signed exReadClaimsWithJti) =
      .ok exReadClaimsWithJti ∧
    (sfuInternalVerify 1000 [] (.signed exReadClaimsWithJti) false).1 =
      .ok ⟨"bob", none⟩ :=
  ⟨rfl, rfl, rfl, rfl⟩

/-- C3 as amended: during structural validation the tokenId gate is
one-directional: for a token passing all earlier checks, validation
succeeds iff a write-like capability implies a present non-empty tokenId;
read tokens are not checked for an absent tokenId. -/
theorem c3_tokenid_check (now : Int) (cl : Claims)
    (h1 : checkNbf now cl = .ok ()) (h2 : checkExp now cl = .ok ())
    (h3 : checkIss cl = .ok ()) (h4 : checkType cl = .ok ())
    (h5 : checkSub cl = .ok ()) :
    decodeAndValidateSfuJwt now (.signed cl) = .ok cl ↔
      (typeIsWriteLike cl = true → strClaimNonempty cl.jti = true) := by
  simp only [decodeAndValidateSfuJwt]
  rw [h1, h2, h3, h4, h5]
  unfold checkJti
  by_cases hw : typeIsWriteLike cl = true
  · rw [if_pos hw]
    by_cases hj : strClaimNonempty cl.jti = true
    · rw [if_pos hj]
      simp [hj]
    · rw [if_neg hj]
      simp [hj, hw]
  · rw [if_neg hw]
    simp [hw]

/-- C3, witness: the amended equivalence applied to a well-formed write
token whose tokenId is present. -/
theorem c3_tokenid_check_witness :
    decodeAndValidateSfuJwt 1000 (.signed exWriteClaims) =
      .ok exWriteClaims :=
  (c3_tokenid_check 1000 exWriteClaims rfl rfl rfl rfl rfl).mpr
    (fun _ => rfl)

-- Claim C4.

/-- C4: a signed token whose `exp` claim parses to a time lying more than
the 5-second clock-skew allowance in the past fails verification with a
401, for every store, consume flag, and remaining claim content. -/
theorem c4_expired_token_401 (now : Int) (s : Store) (consume : Bool)
    (cl : Claims) (v : JVal) (e : Int)
    (hexp : cl.exp = some v) (hint : pyInt? v = some e)
    (hpast : now - e > SFU_TOKEN_CLOCK_SKEW_SECONDS) :
    is401 (sfuInternalVerify now s (.signed cl) consume).1 = true := by
  rcases hd : decodeAndValidateSfuJwt now (.signed cl) with e' | c
  · rw [verify_decode_error now s _ consume e' hd]
    have := (decode_error_props now _ e' hd).1
    simp [is401, this]
  · exfalso
    have hexpok := (decode_ok_all_checks now cl c hd).2.1
    have hskew : SFU_TOKEN_CLOCK_SKEW_SECONDS = (5 : Int) := rfl
    rw [hskew] at hpast
    unfold checkExp at hexpok
    rw [hexp, hskew] at hexpok
    repeat' split at hexpok
    all_goals simp_all
    all_goals omega

/-- C4, witness: at time 3000 the write token with `exp = 2000` fails with
a 401 even though its signature and all other claims are valid and its
marker is present in the store. -/
theorem c4_expired_token_401_witness :
    is401 (sfuInternalVerify 3000 exMarkerStore
      (.signed exWriteClaims) true).1 = true :=
  c4_expired_token_401 3000 exMarkerStore true exWriteClaims
    (.int 2000) 2000 rfl rfl (by decide)

-- Claim C6.

/-- C6: a token with capability read that passes structural validation is
verified entirely from its signed claims: the call returns the claims'
subject with no alias, leaves the store unchanged, performs no store
operation, and its outcome is identical for every store state. -/
theorem c6_read_no_store (now : Int) (s s' : Store) (tok : Token)
    (consume : Bool) (cl : Claims)
    (hd : decodeAndValidateSfuJwt now tok = .ok cl)
    (hty : cl.type = some (.str "sfu:read")) :
    sfuInternalVerify now s tok consume =
      (.ok ⟨pyStr (cl.sub.getD .null), none⟩, s, []) ∧
    (sfuInternalVerify now s tok consume).1 =
      (sfuInternalVerify now s' tok consume).1 := by
  have ha := verify_decode_read now s tok consume cl hd hty
  have hb := verify_decode_read now s' tok consume cl hd hty
  refine ⟨ha, ?_⟩
  rw [ha, hb]

/-- C6, witness: a read token verified with consume=true against the
marker store and against the empty store, with identical results and no
store operations. -/
theorem c6_read_no_store_witness :
    sfuInternalVerify 1000 exMarkerStore (.signed exReadClaims) true =
      (.ok ⟨"dave", none⟩, exMarkerStore, []) ∧
    (sfuInternalVerify 1000 exMarkerStore (.signed exReadClaims) true).1 =
      (sfuInternalVerify 1000 [] (.signed exReadClaims) true).1 :=
  c6_read_no_store 1000 exMarkerStore [] (.signed exReadClaims) true
    exReadClaims rfl rfl

-- Claim C9.

/-- C9: the legacy token type `"sfu"` is accepted by validation and
requires a non-empty tokenId; verification treats a token of type `"sfu"`
exactly like one of type `"sfu:write"` (identical outcome, store effect
and store operations); and any type value other than the three recognised
strings makes validation fail with a 401. -/
theorem c9_legacy_sfu_type (now : Int) (s : Store) (consume : Bool)
    (cl : Claims) :
    (cl.type = some (.str "sfu") →
      ∀ c', decodeAndValidateSfuJwt now (.signed cl) = .ok c' →
        strClaimNonempty cl.jti = true)
    ∧ sfuInternalVerify now s
        (.signed { cl with type := some (.str "sfu") }) consume =
      sfuInternalVerify now s
        (.signed { cl with type := some (.str "sfu:write") }) consume
    ∧ (¬(cl.type = some (.str "sfu") ∨ cl.type = some (.str "sfu:read") ∨
          cl.type = some (.str "sfu:write")) →
        ∃ er, decodeAndValidateSfuJwt now (.signed cl) = .error er ∧
          er.status = 401) := by
  refine ⟨?_, ?_, ?_⟩
  · intro hty c' hok
    have hjti := (decode_ok_all_checks now cl c' hok).2.2.2.2.2
    unfold checkJti at hjti
    have hw : typeIsWriteLike cl = true := by
      unfold typeIsWriteLike; rw [hty]; rfl
    rw [if_pos hw] at hjti
    by_cases hj : strClaimNonempty cl.jti = true
    · exact hj
    · rw [if_neg hj] at hjti
      exact absurd hjti (by simp)
  · simp only [sfuInternalVerify, decodeAndValidateSfuJwt]
    rw [show checkNbf now { cl with type := some (JVal.str "sfu") } =
          checkNbf now cl from rfl,
        show checkNbf now { cl with type := some (JVal.str "sfu:write") } =
          checkNbf now cl from rfl,
        show checkExp now { cl with type := some (JVal.str "sfu") } =
          checkExp now cl from rfl,
        show checkExp now { cl with type := some (JVal.str "sfu:write") } =
          checkExp now cl from rfl,
        show checkIss { cl with type := some (JVal.str "sfu") } =
          checkIss cl from rfl,
        show checkIss { cl with type := some (JVal.str "sfu:write") } =
          checkIss cl from rfl,
        show checkType { cl with type := some (JVal.str "sfu") } =
          .ok () from rfl,
        show checkType { cl with type := some (JVal.str "sfu:write") } =
          .ok () from rfl,
        show checkSub { cl with type := some (JVal.str "sfu") } =
          checkSub cl from rfl,
        show checkSub { cl with type := some (JVal.str "sfu:write") } =
          checkSub cl from rfl,
        show checkJti { cl with type := some (JVal.str "sfu") } =
          (if strClaimNonempty cl.jti then Except.ok ()
           else Except.error ⟨401, "missing jti"⟩) from rfl,
        show checkJti { cl with type := some (JVal.str "sfu:write") } =
          (if strClaimNonempty cl.jti then Except.ok ()
           else Except.error ⟨401, "missing jti"⟩) from rfl]
    cases h1 : checkNbf now cl with
    | error e => rfl
    | ok u =>
      cases h2 : checkExp now cl with
      | error e => rfl
      | ok u2 =>
        cases h3 : checkIss cl with
        | error e => rfl
        | ok u3 =>
          cases h4 : checkSub cl with
          | error e => rfl
          | ok u4 =>
            cases h5 : strClaimNonempty cl.jti with
            | false => rfl
            | true => rfl
  · intro hnr
    rcases hd : decodeAndValidateSfuJwt now (.signed cl) with er | c'
    · exact ⟨er, rfl, (decode_error_props now _ er hd).1⟩
    · exfalso
      have hty := (decode_ok_all_checks now cl c' hd).2.2.2.1
      unfold checkType at hty
      rcases h : cl.type with _ | v
      · rw [h] at hty
        exact absurd hty (by simp)
      · rw [h] at hty
        cases v with
        | str t =>
          by_cases hr :
              (t == "sfu" || t == "sfu:read" || t == "sfu:write") = true
          · apply hnr
            simp only [Bool.or_eq_true, beq_iff_eq] at hr
            rcases hr with (hr | hr) | hr
            · left; rw [h, hr]
            · right; left; rw [h, hr]
            · right; right; rw [h, hr]
          · simp [hr] at hty
        | null => simp at hty
        | int n => simp at hty
        | bool b => simp at hty
        | arr xs => simp at hty
        | obj fs => simp at hty

/-- C9, witness: the legacy claim set of type `"sfu"` has a non-empty
tokenId after a successful validation, and verifying it consumes exactly
as its `"sfu:write"` twin does. -/
theorem c9_legacy_sfu_type_witness :
    strClaimNonempty exLegacyClaims.jti = true ∧
    sfuInternalVerify 1000 [("sfu:auth:jti:t2", .json (.int 0))]
        (.signed { exLegacyClaims with type := some (.str "sfu") }) true =
      sfuInternalVerify 1000 [("sfu:auth:jti:t2", .json (.int 0))]
        (.signed { exLegacyClaims with type := some (.str "sfu:write") })
        true := by
  have h := c9_legacy_sfu_type 1000 [("sfu:auth:jti:t2", .json (.int 0))]
    true exLegacyClaims
  exact ⟨h.1 rfl exLegacyClaims rfl, h.2.1⟩

/-- The acceptable shapes of the `type` claim after a passed type check. -/
theorem checkType_ok_spec (c : Claims) (h : checkType c = .ok ()) :
    c.type = some (.str "sfu") ∨ c.type = some (.str "sfu:read") ∨
    c.type = some (.str "sfu:write") := by
  unfold checkType at h
  rcases ht : c.type with _ | v
  · rw [ht] at h; simp at h
  · rw [ht] at h
    cases v with
    | str t =>
      by_cases hr : (t == "sfu" || t == "sfu:read" || t == "sfu:write") = true
      · simp only [Bool.or_eq_true, beq_iff_eq] at hr
        rcases hr with (hr | hr) | hr
        · left; rw [hr]
        · right; left; rw [hr]
        · right; right; rw [hr]
      · simp [hr] at h
    | null => simp at h
    | int n => simp at h
    | bool b => simp at h
    | arr xs => simp at h
    | obj fs => simp at h

/-- The cross-check of a record reconstructed from the claims themselves
always succeeds, with no alias. -/
theorem verifyStoredData_reconstructed (sub jti : String) :
    verifyStoredData [("sub", .str sub), ("jti", .str jti)] sub jti =
      .ok ⟨sub, none⟩ := by
  unfold verifyStoredData dictGetEqStr dictGet
  simp [List.find?]

/-- With the minted marker value `"0"` stored under the jti key, the
write path can only fail for reasons other than the record cross-check,
and a success carries no alias. -/
theorem writePath_marker0 (s : Store) (cl : Claims) (consume : Bool)
    (hst : storeGet s (SFU_JTI_KEY_BASE ++ pyStr (cl.jti.getD (.str ""))) =
      some (.json (.int 0))) :
    (∀ er, (verifyWritePath s cl consume).1 = .error er →
      er.detail ≠ "sub mismatch" ∧ er.detail ≠ "jti mismatch")
    ∧ (∀ r, (verifyWritePath s cl consume).1 = .ok r →
      r.netplay_username = none) := by
  unfold verifyWritePath
  split
  · constructor
    · intro er h
      simp only [Except.error.injEq] at h
      subst h
      exact ⟨by decide, by decide⟩
    · intro r h
      simp at h
  · unfold verifyLookup
    rw [hst]
    dsimp only
    rw [show storedToData (.json (.int 0)) (pyStr (cl.sub.getD .null))
          (pyStr (cl.jti.getD (.str ""))) =
        [("sub", .str (pyStr (cl.sub.getD .null))),
         ("jti", .str (pyStr (cl.jti.getD (.str ""))))] from rfl]
    rw [verifyStoredData_reconstructed]
    split
    · split
      · constructor
        · intro er h
          simp only [Except.error.injEq] at h
          subst h
          exact ⟨by decide, by decide⟩
        · intro r h
          simp at h
      · constructor
        · intro er h
          simp at h
        · intro r h
          simp only [Except.ok.injEq] at h
          subst h
          rfl
    · constructor
      · intro er h
        simp at h
      · intro r h
        simp only [Except.ok.injEq] at h
        subst h
        rfl

-- Claim C10.

/-- C10: with the marker value `"0"` that `mint_sfu_token` writes (a
non-dict JSON value) stored under the token's jti key, the stored-record
cross-check branches are unreachable — verification never fails with
"sub mismatch" or "jti mismatch" — and a successful verification carries
no alias. -/
theorem c10_mismatch_unreachable (now : Int) (s : Store) (consume : Bool)
    (cl : Claims)
    (hst : storeGet s (SFU_JTI_KEY_BASE ++ pyStr (cl.jti.getD (.str ""))) =
      some (.json (.int 0))) :
    (∀ er, (sfuInternalVerify now s (.signed cl) consume).1 = .error er →
      er.detail ≠ "sub mismatch" ∧ er.detail ≠ "jti mismatch")
    ∧ (∀ r, (sfuInternalVerify now s (.signed cl) consume).1 = .ok r →
      r.netplay_username = none) := by
  rcases hd : decodeAndValidateSfuJwt now (.signed cl) with e' | c
  · rw [verify_decode_error now s _ consume e' hd]
    have hp := decode_error_props now _ e' hd
    constructor
    · intro er h
      simp only [Except.error.injEq] at h
      subst h
      exact ⟨hp.2.1, hp.2.2.1⟩
    · intro r h
      simp at h
  · have hceq : c = cl := decode_ok_eq now cl c hd
    subst c
    rcases checkType_ok_spec cl (decode_ok_all_checks now cl cl hd).2.2.2.1
      with hty | hty | hty
    case _ =>
      -- legacy "sfu": write path
      rw [verify_decode_write now s _ consume cl "sfu" hd hty (by decide)]
      exact writePath_marker0 s cl consume hst
    case _ =>
      -- read: success from claims, no alias
      rw [verify_decode_read now s _ consume cl hd hty]
      constructor
      · intro er h
        simp at h
      · intro r h
        simp only [Except.ok.injEq] at h
        subst h
        rfl
    case _ =>
      rw [verify_decode_write now s _ consume cl "sfu:write" hd hty
        (by decide)]
      exact writePath_marker0 s cl consume hst

/-- C10, witness: a write token whose marker is the minted `"0"` verifies
successfully with consumption and the response carries no alias. -/
theorem c10_mismatch_unreachable_witness :
    (sfuInternalVerify 1000 exMarkerStore (.signed exWriteClaims) true).1 =
      .ok ⟨"alice", none⟩ ∧
    (SFUVerifyResponse.mk "alice" none).netplay_username = none := by
  refine ⟨rfl, ?_⟩
  exact (c10_mismatch_unreachable 1000 exMarkerStore true exWriteClaims
    rfl).2 ⟨"alice", none⟩ rfl

-- Claim C5.

/-- C5: minting with a capability outside read/write fails with a 400
InvalidRequest and performs no store operation; minting read returns TTL
900 and a token with `exp = iat + 900`; minting write returns TTL 30 and a
token with `exp = iat + 30`. -/
theorem c5_mint_ttls (now : Int) (freshJti : String) (u : User) (s : Store)
    (tt : String) (ok : Bool) :
    (tt ≠ "read" → tt ≠ "write" →
      mint_sfu_token now freshJti u tt s ok =
        (.error ⟨400, "token_type must be 'read' or 'write'"⟩, s, []))
    ∧ (∃ cl, (mint_sfu_token now freshJti u "read" s ok).1 =
        .ok ⟨.signed cl, "bearer", 900⟩ ∧
        cl.iat = some (.int now) ∧ cl.exp = some (.int (now + 900)))
    ∧ (∃ cl, (mint_sfu_token now freshJti u "write" s true).1 =
        .ok ⟨.signed cl, "bearer", 30⟩ ∧
        cl.iat = some (.int now) ∧ cl.exp = some (.int (now + 30))) := by
  refine ⟨?_, ?_, ?_⟩
  · intro h1 h2
    have hb1 : (tt == "read") = false := beq_eq_false_iff_ne.mpr h1
    have hb2 : (tt == "write") = false := beq_eq_false_iff_ne.mpr h2
    simp [mint_sfu_token, hb1, hb2]
  · exact ⟨{ sub := some (.str u.username),
             iss := some (.str SFU_TOKEN_ISSUER),
             type := some (.str "sfu:read"),
             iat := some (.int now),
             exp := some (.int (now + 900)) }, rfl, rfl, rfl⟩
  · exact ⟨{ sub := some (.str u.username),
             iss := some (.str SFU_TOKEN_ISSUER),
             type := some (.str "sfu:write"),
             iat := some (.int now),
             jti := some (.str freshJti),
             exp := some (.int (now + 30)) }, rfl, rfl, rfl⟩

/-- C5, witness: minting with the unrecognised capability "admin" fails
with a 400 and leaves the store untouched, performing no store write. -/
theorem c5_mint_ttls_witness :
    mint_sfu_token 1000 "deadbeef" exUser "admin" [] true =
      (.error ⟨400, "token_type must be 'read' or 'write'"⟩, [], []) :=
  (c5_mint_ttls 1000 "deadbeef" exUser [] "admin" true).1
    (by decide) (by decide)

-- Claim C2 (code bug).

/-- C2, evaluation at the failing input.  Minting a write token for a
user whose preferences carry a netplay username does write a marker at
the prefixed jti key with TTL 30 and aborts with no token when the store
write fails, but the marker value is the plain string "0" (the JSON
number 0) — not a record containing subject, issuer, tokenId, timestamps
and alias as the claim, the spec (§4.1), and the repository's own test
`test_mint_sfu_token_success` require. -/
theorem c2_marker_not_record :
    mint_sfu_token 1000 "deadbeef" exUser "write" [] true =
      (.ok ⟨.signed { sub := some (.str "alice"),
                      iss := some (.str "romm:sfu"),
                      type := some (.str "sfu:write"),
                      iat := some (.int 1000),
                      exp := some (.int 1030),
                      jti := some (.str "deadbeef") }, "bearer", 30⟩,
       [("sfu:auth:jti:deadbeef", .json (.int 0))],
       [.set "sfu:auth:jti:deadbeef" (.json (.int 0)) 30]) ∧
    get_netplay_username_from_ui_settings exUser.ui_settings =
      some "TestNetplayName" ∧
    isOkResp (mint_sfu_token 1000 "deadbeef" exUser "write" [] false).1 =
      false :=
  ⟨rfl, by decide, rfl⟩

-- Claim C7.

/-- The source loop over the candidate values agrees with a
first-qualifying-key search over the candidate keys. -/
theorem firstGoodCandidate_eq_find (l : List (String × JVal)) :
    ∀ ks : List String,
      firstGoodCandidate (ks.map (dictGet l)) =
        (match ks.find? (aliasKeyQualifies l) with
         | none => none
         | some k =>
           match dictGet l k with
           | some (.str s) => some (pyStrip s)
           | _ => none) := by
  intro ks
  induction ks with
  | nil => rfl
  | cons k ks ih =>
    rw [List.map_cons]
    by_cases hq : aliasKeyQualifies l k = true
    · rw [List.find?_cons_of_pos _ hq]
      dsimp only
      unfold aliasKeyQualifies at hq
      rcases hd : dictGet l k with _ | v
      · rw [hd] at hq; simp at hq
      · rw [hd] at hq
        cases v with
        | str t =>
          dsimp only at hq
          dsimp only
          simp [firstGoodCandidate, hq]
        | null => simp at hq
        | int n => simp at hq
        | bool b => simp at hq
        | arr xs => simp at hq
        | obj fs => simp at hq
    · rw [List.find?_cons_of_neg _ hq]
      rw [← ih]
      unfold aliasKeyQualifies at hq
      rcases hd : dictGet l k with _ | v
      · rfl
      · rw [hd] at hq
        cases v with
        | str t =>
          dsimp only at hq
          have ht : (!(pyStrip t == "")) = false := by
            rcases hb : (!(pyStrip t == "")) with _ | _
            · rfl
            · exact absurd hb hq
          simp [firstGoodCandidate, ht]
        | null => rfl
        | int n => rfl
        | bool b => rfl
        | arr xs => rfl
        | obj fs => rfl

/-- C7: the alias resolved at mint time is exactly the trimmed value of
the first key, in the fixed candidate order, whose value is a string
non-empty after trimming; with no mapping or no qualifying candidate the
alias is none and minting still succeeds for both capabilities. -/
theorem c7_alias_resolution (ui : Option (List (String × JVal)))
    (now : Int) (freshJti : String) (u : User) (s : Store) :
    get_netplay_username_from_ui_settings ui = specResolvedAlias ui
    ∧ (get_netplay_username_from_ui_settings u.ui_settings = none →
        isOkResp (mint_sfu_token now freshJti u "read" s true).1 = true ∧
        isOkResp (mint_sfu_token now freshJti u "write" s true).1 = true) := by
  constructor
  · unfold get_netplay_username_from_ui_settings specResolvedAlias
    cases ui with
    | none => rfl
    | some l =>
      dsimp only
      by_cases hl : l.isEmpty = true
      · rw [if_pos hl]
        have hnil : l = [] := by
          cases l
          · rfl
          · simp at hl
        subst hnil
        rfl
      · rw [if_neg hl]
        have h := firstGoodCandidate_eq_find l aliasKeyOrder
        rw [show aliasKeyOrder.map (dictGet l) =
            [dictGet l "netplay_username", dictGet l "netplayUsername",
             dictGet l "settings.netplayUsername",
             dictGet l "settings.netplay_username"] from rfl] at h
        exact h
  · intro _
    exact ⟨rfl, rfl⟩

/-- C7, witness: a camelCase candidate with surrounding whitespace is
found second in the order and trimmed; a user with no preferences mints
successfully with no alias. -/
theorem c7_alias_resolution_witness :
    get_netplay_username_from_ui_settings
        (some [("netplayUsername", .str "  Zed ")]) =
      specResolvedAlias (some [("netplayUsername", .str "  Zed ")]) ∧
    isOkResp (mint_sfu_token 1000 "j1" ⟨"eve", none⟩ "read" [] true).1 =
      true := by
  have h := c7_alias_resolution (some [("netplayUsername", .str "  Zed ")])
    1000 "j1" ⟨"eve", none⟩ []
  exact ⟨h.1, (h.2 rfl).1⟩

-- Claim C8: association-list lemmas.

/-- Inserting a key makes it present. -/
theorem alistSet_mem_keys {β : Type} (l : List (String × β)) (k : String)
    (v : β) : k ∈ (alistSet l k v).map Prod.fst := by
  unfold alistSet
  split
  · rename_i h
    rw [List.any_eq_true] at h
    rcases h with ⟨p, hp, hpk⟩
    refine List.mem_map.mpr ⟨(k, v), ?_, rfl⟩
    refine List.mem_map.mpr ⟨p, hp, ?_⟩
    rw [if_pos hpk]
  · simp

/-- Inserting preserves the presence of every key. -/
theorem alistSet_keys_mono {β : Type} (l : List (String × β))
    (k k' : String) (v : β) (h : k' ∈ l.map Prod.fst) :
    k' ∈ (alistSet l k v).map Prod.fst := by
  unfold alistSet
  split
  · rcases List.mem_map.mp h with ⟨p, hp, hfst⟩
    by_cases hc : (p.1 == k) = true
    · have hk : k' = k := by rw [← hfst]; exact beq_iff_eq.mp hc
      subst hk
      refine List.mem_map.mpr ⟨(k', v), ?_, rfl⟩
      refine List.mem_map.mpr ⟨p, hp, ?_⟩
      rw [if_pos hc]
    · refine List.mem_map.mpr ⟨p, ?_, hfst⟩
      refine List.mem_map.mpr ⟨p, hp, ?_⟩
      rw [if_neg hc]
  · rw [List.map_append]
    exact List.mem_append_left _ h

/-- Every entry of `alistSet l k v` is the inserted pair or an entry of
`l`. -/
theorem alistSet_mem_sub {β : Type} (l : List (String × β)) (k : String)
    (v : β) (q : String × β) (hq : q ∈ alistSet l k v) :
    q = (k, v) ∨ q ∈ l := by
  unfold alistSet at hq
  split at hq
  · rcases List.mem_map.mp hq with ⟨p, hp, heq⟩
    by_cases hc : (p.1 == k) = true
    · rw [if_pos hc] at heq
      left; exact heq.symm
    · rw [if_neg hc] at heq
      right; rw [← heq]; exact hp
  · rcases List.mem_append.mp hq with h | h
    · right; exact h
    · left; simpa using h

/-- A successful association-list lookup names an entry of the list. -/
theorem alistGet_mem {β : Type} (l : List (String × β)) (name : String)
    (v : β) (h : alistGet l name = some v) : (name, v) ∈ l := by
  unfold alistGet at h
  rcases hf : l.find? (fun p => p.1 == name) with _ | p
  · rw [hf] at h; simp at h
  · rw [hf] at h
    rcases p with ⟨a, b⟩
    simp only [Option.map_some'] at h
    have hm := List.mem_of_find?_eq_some hf
    have hp := List.find?_some hf
    have ha : a = name := beq_iff_eq.mp hp
    have hb : b = v := by simpa using h
    subst ha; subst hb
    exact hm

/-- No summary built by the listing carries the `updatedAt` field. -/
theorem roomSummary_no_updatedAt (rn : JVal)
    (fields : List (String × JVal)) :
    dictGet (roomSummary rn fields) "updatedAt" = none := rfl

/-- One listing step over an undecodable or falsy raw value skips it. -/
theorem listRoomsGo_cons_notJson (k str : String)
    (rest : List (String × RVal))
    (acc : List (String × List (String × JVal))) :
    listRoomsGo ((k, .notJson str) :: rest) acc = listRoomsGo rest acc := by
  conv_lhs => rw [listRoomsGo]
  split <;> rfl

/-- One listing step over a decoded object record inserts its summary
under the embedded name when truthy, else under the key-derived name. -/
theorem listRoomsGo_cons_obj (k : String) (fields : List (String × JVal))
    (rest : List (String × RVal))
    (acc : List (String × List (String × JVal))) :
    listRoomsGo ((k, .json (.obj fields)) :: rest) acc =
      (if pyTruthy ((dictGet fields "room_name").getD .null) then
        listRoomsGo rest
          (alistSet acc (pyStr ((dictGet fields "room_name").getD .null))
            (roomSummary ((dictGet fields "room_name").getD .null) fields))
      else
        listRoomsGo rest
          (alistSet acc (k.drop SFU_ROOM_KEY_BASE.length)
            (roomSummary (.str (k.drop SFU_ROOM_KEY_BASE.length))
              fields))) := rfl

/-- The listing loop, specified: under stores whose JSON values are all
objects it succeeds; keys already accumulated persist; every decoded
record contributes an entry under its derived name; summaries never carry
`updatedAt`; and with nothing decodable the accumulator is returned
unchanged. -/
theorem listRoomsGo_spec :
    ∀ (pairs : List (String × RVal))
      (acc : List (String × List (String × JVal))),
      (∀ p ∈ pairs, ∀ j, p.2 = RVal.json j → ∃ fields, j = .obj fields) →
      ∃ out, listRoomsGo pairs acc = .ok out ∧
        (∀ k' ∈ acc.map Prod.fst, k' ∈ out.map Prod.fst) ∧
        (∀ p ∈ pairs, ∀ fields, p.2 = RVal.json (.obj fields) →
          roomOutName p.1 fields ∈ out.map Prod.fst) ∧
        ((∀ q ∈ acc, dictGet q.2 "updatedAt" = none) →
          ∀ q ∈ out, dictGet q.2 "updatedAt" = none) ∧
        ((∀ p ∈ pairs, ∀ fields, p.2 ≠ RVal.json (.obj fields)) →
          out = acc) := by
  intro pairs
  induction pairs with
  | nil =>
    intro acc _
    refine ⟨acc, rfl, fun k hk => hk, ?_, fun hP => hP, fun _ => rfl⟩
    intro p hp
    cases hp
  | cons pv rest ih =>
    intro acc hwf
    rcases pv with ⟨k, v⟩
    have hwfrest : ∀ p ∈ rest, ∀ j, p.2 = RVal.json j →
        ∃ fields, j = .obj fields :=
      fun p hp => hwf p (List.mem_cons_of_mem _ hp)
    rcases v with j | str
    · rcases hwf (k, .json j) (List.mem_cons_self _ _) j rfl
        with ⟨fields, hj⟩
      subst hj
      rw [listRoomsGo_cons_obj]
      by_cases hrn : pyTruthy ((dictGet fields "room_name").getD .null) =
          true
      · rw [if_pos hrn]
        rcases ih (alistSet acc
            (pyStr ((dictGet fields "room_name").getD .null))
            (roomSummary ((dictGet fields "room_name").getD .null) fields))
            hwfrest with ⟨out, hgo, hkeys, hadds, hP, _⟩
        refine ⟨out, hgo, ?_, ?_, ?_, ?_⟩
        · intro k' hk'
          exact hkeys _ (alistSet_keys_mono _ _ _ _ hk')
        · intro p hp fields' hf
          rcases List.mem_cons.mp hp with hp | hp
          · subst hp
            simp only [RVal.json.injEq, JVal.obj.injEq] at hf
            subst hf
            have hname : roomOutName k fields =
                pyStr ((dictGet fields "room_name").getD .null) := by
              unfold roomOutName
              rw [if_pos hrn]
            rw [hname]
            exact hkeys _ (alistSet_mem_keys _ _ _)
          · exact hadds p hp fields' hf
        · intro hPacc q hq
          refine hP ?_ q hq
          intro q' hq'
          rcases alistSet_mem_sub _ _ _ q' hq' with h | h
          · rw [h]
            exact roomSummary_no_updatedAt _ _
          · exact hPacc q' h
        · intro hno
          exact absurd rfl
            (hno (k, .json (.obj fields)) (List.mem_cons_self _ _) fields)
      · rw [if_neg hrn]
        rcases ih (alistSet acc (k.drop SFU_ROOM_KEY_BASE.length)
            (roomSummary (.str (k.drop SFU_ROOM_KEY_BASE.length)) fields))
            hwfrest with ⟨out, hgo, hkeys, hadds, hP, _⟩
        refine ⟨out, hgo, ?_, ?_, ?_, ?_⟩
        · intro k' hk'
          exact hkeys _ (alistSet_keys_mono _ _ _ _ hk')
        · intro p hp fields' hf
          rcases List.mem_cons.mp hp with hp | hp
          · subst hp
            simp only [RVal.json.injEq, JVal.obj.injEq] at hf
            subst hf
            have hname : roomOutName k fields =
                k.drop SFU_ROOM_KEY_BASE.length := by
              unfold roomOutName
              rw [if_neg hrn]
            rw [hname]
            exact hkeys _ (alistSet_mem_keys _ _ _)
          · exact hadds p hp fields' hf
        · intro hPacc q hq
          refine hP ?_ q hq
          intro q' hq'
          rcases alistSet_mem_sub _ _ _ q' hq' with h | h
          · rw [h]
            exact roomSummary_no_updatedAt _ _
          · exact hPacc q' h
        · intro hno
          exact absurd rfl
            (hno (k, .json (.obj fields)) (List.mem_cons_self _ _) fields)
    · rw [listRoomsGo_cons_notJson]
      rcases ih acc hwfrest with ⟨out, hgo, hkeys, hadds, hP, hnone⟩
      refine ⟨out, hgo, hkeys, ?_, hP, ?_⟩
      · intro p hp fields hf
        rcases List.mem_cons.mp hp with hp | hp
        · subst hp
          simp at hf
        · exact hadds p hp fields hf
      · intro hno
        exact hnone (fun p hp => hno p (List.mem_cons_of_mem _ hp))

-- Claim C8.

/-- C8, counterexample to the claim as stated.  A room record that is
valid JSON but not an object (here the number 5) is decoded successfully
by `json.loads`, yet the subsequent `parsed.get` lies outside the
try/except, so the record raises and the whole listing fails with a 500
instead of returning a mapping. -/
theorem c8_rooms_list_counterexample :
    sfu_internal_rooms_list [("sfu:room:x", .json (.int 5))] =
      .error ⟨500, "AttributeError"⟩ := rfl

/-- C8 as amended: provided every value under the room-key base is either
not valid JSON or a JSON object, the listing succeeds; it contains an
entry for every record decoding to an object, keyed by the embedded room
name when truthy and otherwise by the name recovered from the key;
records that fail to decode are skipped without failing the listing (with
no object records the listing is empty); and no returned summary contains
the `updatedAt` field. -/
theorem c8_rooms_list (s : Store)
    (hwf : ∀ p ∈ s, strStartsWith p.1 SFU_ROOM_KEY_BASE = true →
      ∀ j, p.2 = RVal.json j → ∃ fields, j = .obj fields) :
    ∃ out, sfu_internal_rooms_list s = .ok out ∧
      (∀ p ∈ s, strStartsWith p.1 SFU_ROOM_KEY_BASE = true →
        ∀ fields, p.2 = RVal.json (.obj fields) →
          roomOutName p.1 fields ∈ out.map Prod.fst) ∧
      (∀ name summ, alistGet out name = some summ →
        dictGet summ "updatedAt" = none) ∧
      ((∀ p ∈ s, ∀ fields, p.2 ≠ RVal.json (.obj fields)) → out = []) := by
  unfold sfu_internal_rooms_list
  have hwf' : ∀ p ∈ s.filter
      (fun p => strStartsWith p.1 SFU_ROOM_KEY_BASE),
      ∀ j, p.2 = RVal.json j → ∃ fields, j = JVal.obj fields := by
    intro p hp
    have h2 : (fun p => strStartsWith p.1 SFU_ROOM_KEY_BASE) p = true :=
      @List.of_mem_filter _ (fun p => strStartsWith p.1 SFU_ROOM_KEY_BASE)
        p s hp
    exact hwf p (List.mem_of_mem_filter hp) h2
  rcases listRoomsGo_spec _ [] hwf' with ⟨out, hgo, _, hadds, hP, hnone⟩
  refine ⟨out, hgo, ?_, ?_, ?_⟩
  · intro p hp hpre fields hf
    exact hadds p (List.mem_filter.mpr ⟨hp, hpre⟩) fields hf
  · intro name summ hget
    have hmem := alistGet_mem out name summ hget
    exact hP (fun q hq => absurd hq (List.not_mem_nil q)) (name, summ) hmem
  · intro hno
    exact hnone (fun p hp fields =>
      hno p (List.mem_of_mem_filter hp) fields)

/-- C8, witness: the example room store lists successfully, with an entry
for the record carrying its room name and one recovered from the key of
the record without one, while the undecodable record is skipped. -/
theorem c8_rooms_list_witness :
    "r1" ∈ exRoomsOut.map Prod.fst ∧ "r3" ∈ exRoomsOut.map Prod.fst ∧
    sfu_internal_rooms_list exRoomStore = .ok exRoomsOut := by
  have hwf : ∀ p ∈ exRoomStore,
      strStartsWith p.1 SFU_ROOM_KEY_BASE = true →
      ∀ j, p.2 = RVal.json j → ∃ fields, j = JVal.obj fields := by
    intro p hp hpre j hj
    rcases List.mem_cons.mp hp with rfl | hp
    · injection hj with h
      exact ⟨_, h.symm⟩
    rcases List.mem_cons.mp hp with rfl | hp
    · simp at hj
    rcases List.mem_cons.mp hp with rfl | hp
    · injection hj with h
      exact ⟨_, h.symm⟩
    rcases List.mem_cons.mp hp with rfl | hp
    · exact absurd hpre (by decide)
    cases hp
  rcases c8_rooms_list exRoomStore hwf with ⟨out, hgo, hadds, _, _⟩
  have hout : out = exRoomsOut := by
    have h1 : (Except.ok out : Except HErr _) = .ok exRoomsOut := by
      rw [← hgo]
      rfl
    simpa using h1
  subst hout
  refine ⟨?_, ?_, rfl⟩
  · exact hadds ("sfu:room:r1",
      .json (.obj [("room_name", .str "r1"), ("updatedAt", .int 999)]))
      (List.mem_cons_self _ _) rfl
      [("room_name", .str "r1"), ("updatedAt", .int 999)] rfl
  · exact hadds ("sfu:room:r3", .json (.obj [("current", .int 2)]))
      (by simp [exRoomStore]) rfl [("current", .int 2)] rfl

end SFUSpec
